import Mathlib

/-!
Shallow embedding of `preprocess_FE.py`, the calendar-aware temporal feature
encoder of the bicycle-count preprocessing pipeline.

Modelling conventions:
* A pandas `Timestamp` is a record of civil calendar fields (year, month, day,
  hour, minute); chronological comparison of two timestamps goes through
  `toMinutes`, which converts the civil fields to minutes since the civil era
  origin using the standard days-from-civil formula.  `dt.floor("D")`
  (day truncation) zeroes the hour and minute fields.
* A DataFrame is a list of typed rows.  Each source function that adds columns
  is embedded as a `List.map` producing a row type extended with the new
  fields; `drop(columns=...)` produces a row type without the dropped field.
  Numeric measurement values are `ℚ` (exact arithmetic stands in for floats;
  no claim depends on rounding).
* `np.sin(2*np.pi*v/period)` and `np.cos(2*np.pi*v/period)` are abstracted as
  parameters `npSin npCos : ℚ → ℚ` applied to `v / period`; no claim depends
  on the numeric values of the cyclical features, so all theorems hold for
  every choice of these parameters.
* Column-not-found errors (pandas `KeyError`) are modelled by a parallel
  column-level embedding: each source function also has a `?_cols` version
  mapping the list of column names of its argument to `Except String Cols`,
  erroring exactly when a column the source code reads (or drops) is absent.
* In-place mutation: pandas column assignment (`df[c] = ...`, `df.loc[:, c] =
  ...`) mutates the caller's DataFrame object, while `drop`, `merge` and
  `query` return fresh objects.  The `?_effect` versions of the functions that
  the mutation claim cites return a pair `(state of the argument object after
  the call, returned object)`, both as column lists.
-/

/-- A pandas timestamp: civil calendar fields at minute resolution
(seconds are never consulted by this pipeline). -/
structure Timestamp where
  year : Nat
  month : Nat
  day : Nat
  hour : Nat
  minute : Nat
deriving DecidableEq, Repr

/-- Days since the civil era origin (0000-03-01, Gregorian, proleptic) of a
civil date; the standard days-from-civil formula restricted to `Nat`
(all dates in this pipeline are CE). -/
def daysFromCivil (y m d : Nat) : Nat :=
  let yAdj := if m ≤ 2 then y - 1 else y
  let era := yAdj / 400
  let yoe := yAdj % 400
  let mp := if 2 < m then m - 3 else m + 9
  let doy := (153 * mp + 2) / 5 + d - 1
  let doe := yoe * 365 + yoe / 4 - yoe / 100 + doy
  era * 146097 + doe

/-- Day number of a timestamp's calendar date (day-granularity view). -/
def dayNumber (ts : Timestamp) : Nat :=
  daysFromCivil ts.year ts.month ts.day

/-- Minutes since the civil era origin; chronological order of pandas
timestamps is the order of this value. -/
def toMinutes (ts : Timestamp) : Nat :=
  dayNumber ts * 1440 + ts.hour * 60 + ts.minute

/-- `dt.floor("D")`: truncate a timestamp to day granularity. -/
def floorTs (ts : Timestamp) : Timestamp :=
  ⟨ts.year, ts.month, ts.day, 0, 0⟩

/-- Weekday with Monday = 0 (pandas `dt.weekday`); the civil era origin
0000-03-01 was a Wednesday, giving offset 2. -/
def weekday_of (ts : Timestamp) : Nat :=
  (dayNumber ts + 2) % 7

/-- One entry of the hardcoded curfew table: `(start_date, end_date,
start_hour, end_hour)`, the date strings parsed (as `pd.Timestamp` does) to
midnight timestamps. -/
structure CurfewWindow where
  startTs : Timestamp
  endTs : Timestamp
  startHour : Nat
  endHour : Nat
deriving DecidableEq, Repr

/-- The fixed five-entry `curfews` table of `curfew_periods`. -/
def curfews : List CurfewWindow :=
  [ ⟨⟨2020, 10, 17, 0, 0⟩, ⟨2020, 10, 29, 0, 0⟩, 21, 6⟩,
    ⟨⟨2021, 1, 16, 0, 0⟩, ⟨2021, 3, 20, 0, 0⟩, 18, 6⟩,
    ⟨⟨2021, 3, 21, 0, 0⟩, ⟨2021, 5, 19, 0, 0⟩, 19, 6⟩,
    ⟨⟨2021, 5, 20, 0, 0⟩, ⟨2021, 6, 9, 0, 0⟩, 21, 6⟩,
    ⟨⟨2021, 6, 10, 0, 0⟩, ⟨2021, 6, 20, 0, 0⟩, 23, 6⟩ ]

/-- The loop body of `is_curfew`: walk the window list; where
`start <= timestamp <= end` (full-timestamp comparison) test
`hour >= start_hour or hour < end_hour`; first success returns 1, otherwise
keep scanning; an exhausted list returns 0. -/
def is_curfew_scan : List CurfewWindow → Timestamp → Nat
  | [], _ => 0
  | w :: rest, ts =>
    if toMinutes w.startTs ≤ toMinutes ts ∧ toMinutes ts ≤ toMinutes w.endTs then
      if w.startHour ≤ ts.hour ∨ ts.hour < w.endHour then 1
      else is_curfew_scan rest ts
    else is_curfew_scan rest ts

/-- `is_curfew` from `curfew_periods`, applied to the fixed table. -/
def is_curfew (ts : Timestamp) : Nat :=
  is_curfew_scan curfews ts

/-- An input Observation Row: the join timestamp `date_x` used by the
temporal builder, the cleaner's timestamp `date`, the sensor name, the
transformed count, and the weather measurements `t` (temperature), `rr1`
(rainfall), `ff` (wind speed). -/
structure Row where
  date_x : Timestamp
  date : Timestamp
  counter_name : String
  log_bike_count : ℚ
  t : ℚ
  rr1 : ℚ
  ff : ℚ
deriving DecidableEq, Repr

/-- Row after `add_basic_date_features`. -/
structure BasicRow extends Row where
  year : Nat
  month : Nat
  day : Nat
  weekday : Nat
  hour : Nat
deriving DecidableEq, Repr

/-- Row after `add_season_feature`. -/
structure SeasonRow extends BasicRow where
  season : String
deriving DecidableEq, Repr

/-- Row after `add_indicator_features`. -/
structure IndRow extends SeasonRow where
  school_holiday : Nat
  public_holiday : Nat
  is_peak : Nat
deriving DecidableEq, Repr

/-- Row after `create_cyclical_features(X, 'hour', 24)`: the `hour` column is
dropped, `sin_hour`/`cos_hour` are added. -/
structure CycHourRow where
  date_x : Timestamp
  date : Timestamp
  counter_name : String
  log_bike_count : ℚ
  t : ℚ
  rr1 : ℚ
  ff : ℚ
  year : Nat
  month : Nat
  day : Nat
  weekday : Nat
  season : String
  school_holiday : Nat
  public_holiday : Nat
  is_peak : Nat
  sin_hour : ℚ
  cos_hour : ℚ
deriving DecidableEq, Repr

/-- Row after `create_cyclical_features(X, 'month', 12)`: the `month` column
is dropped, `sin_month`/`cos_month` are added. -/
structure CycMonthRow where
  date_x : Timestamp
  date : Timestamp
  counter_name : String
  log_bike_count : ℚ
  t : ℚ
  rr1 : ℚ
  ff : ℚ
  year : Nat
  day : Nat
  weekday : Nat
  season : String
  school_holiday : Nat
  public_holiday : Nat
  is_peak : Nat
  sin_hour : ℚ
  cos_hour : ℚ
  sin_month : ℚ
  cos_month : ℚ
deriving DecidableEq, Repr

/-- Row after `curfew_periods`. -/
structure CurfewRow extends CycMonthRow where
  curfew : Nat
deriving DecidableEq, Repr

/-- Final output row of `encode_dates`: the `date_x` column is dropped. -/
structure EncodedRow where
  date : Timestamp
  counter_name : String
  log_bike_count : ℚ
  t : ℚ
  rr1 : ℚ
  ff : ℚ
  year : Nat
  day : Nat
  weekday : Nat
  season : String
  school_holiday : Nat
  public_holiday : Nat
  is_peak : Nat
  sin_hour : ℚ
  cos_hour : ℚ
  sin_month : ℚ
  cos_month : ℚ
  curfew : Nat
deriving DecidableEq, Repr

/-- `add_basic_date_features`: year/month/day/weekday/hour extracted from
`date_x`. -/
def add_basic_date_features (X : List Row) : List BasicRow :=
  X.map fun r =>
    { toRow := r, year := r.date_x.year, month := r.date_x.month,
      day := r.date_x.day, weekday := weekday_of r.date_x,
      hour := r.date_x.hour }

/-- The `np.select` month-to-season table of `add_season_feature`
(first matching condition wins, default `"Unknown"`). -/
def season_of (m : Nat) : String :=
  if m = 12 ∨ m = 1 ∨ m = 2 then "Winter"
  else if m = 3 ∨ m = 4 ∨ m = 5 then "Spring"
  else if m = 6 ∨ m = 7 ∨ m = 8 then "Summer"
  else if m = 9 ∨ m = 10 ∨ m = 11 then "Fall"
  else "Unknown"

/-- `add_season_feature`: season derived from the `month` column. -/
def add_season_feature (X : List BasicRow) : List SeasonRow :=
  X.map fun r => { toBasicRow := r, season := season_of r.month }

/-- `Series.isin(values)` for datetime data: exact-instant membership. -/
def isinDt (x : Timestamp) (vals : List Timestamp) : Bool :=
  vals.any fun v => toMinutes v == toMinutes x

/-- The peak-hour lambda of `add_indicator_features`:
`1 if (6 <= x < 9 or 16 <= x < 19) else 0`. -/
def is_peak_of (h : Nat) : Nat :=
  if (6 ≤ h ∧ h < 9) ∨ (16 ≤ h ∧ h < 19) then 1 else 0

/-- `add_indicator_features`: `school_holiday`/`public_holiday` via
`X["date_x"].isin(...)` on the full timestamp, `is_peak` from the `hour`
column. -/
def add_indicator_features (X : List SeasonRow)
    (school_holidays public_holidays : List Timestamp) : List IndRow :=
  X.map fun r =>
    { toSeasonRow := r,
      school_holiday := if isinDt r.date_x school_holidays then 1 else 0,
      public_holiday := if isinDt r.date_x public_holidays then 1 else 0,
      is_peak := is_peak_of r.hour }

/-- `create_cyclical_features(X, 'hour', 24)` specialised to the row type of
its call site; `npSin`/`npCos` abstract `np.sin(2πv)`/`np.cos(2πv)`. -/
def create_cyclical_features_hour (npSin npCos : ℚ → ℚ)
    (X : List IndRow) : List CycHourRow :=
  X.map fun r =>
    { date_x := r.date_x, date := r.date, counter_name := r.counter_name,
      log_bike_count := r.log_bike_count, t := r.t, rr1 := r.rr1, ff := r.ff,
      year := r.year, month := r.month, day := r.day, weekday := r.weekday,
      season := r.season, school_holiday := r.school_holiday,
      public_holiday := r.public_holiday, is_peak := r.is_peak,
      sin_hour := npSin ((r.hour : ℚ) / 24),
      cos_hour := npCos ((r.hour : ℚ) / 24) }

/-- `create_cyclical_features(X, 'month', 12)` specialised to the row type of
its call site. -/
def create_cyclical_features_month (npSin npCos : ℚ → ℚ)
    (X : List CycHourRow) : List CycMonthRow :=
  X.map fun r =>
    { date_x := r.date_x, date := r.date, counter_name := r.counter_name,
      log_bike_count := r.log_bike_count, t := r.t, rr1 := r.rr1, ff := r.ff,
      year := r.year, day := r.day, weekday := r.weekday,
      season := r.season, school_holiday := r.school_holiday,
      public_holiday := r.public_holiday, is_peak := r.is_peak,
      sin_hour := r.sin_hour, cos_hour := r.cos_hour,
      sin_month := npSin ((r.month : ℚ) / 12),
      cos_month := npCos ((r.month : ℚ) / 12) }

/-- `curfew_periods` applied at its call site inside `encode_dates`
(`date_column = "date_x"`). -/
def curfew_periods (X : List CycMonthRow) : List CurfewRow :=
  X.map fun r => { toCycMonthRow := r, curfew := is_curfew r.date_x }

/-- The final `X.drop(columns=['date_x'])` of `encode_dates`. -/
def dropDateX (r : CurfewRow) : EncodedRow :=
  { date := r.date, counter_name := r.counter_name,
    log_bike_count := r.log_bike_count, t := r.t, rr1 := r.rr1, ff := r.ff,
    year := r.year, day := r.day, weekday := r.weekday, season := r.season,
    school_holiday := r.school_holiday, public_holiday := r.public_holiday,
    is_peak := r.is_peak, sin_hour := r.sin_hour, cos_hour := r.cos_hour,
    sin_month := r.sin_month, cos_month := r.cos_month, curfew := r.curfew }

/-- `encode_dates`: the full temporal feature pipeline, step for step as the
source composes it. -/
def encode_dates (npSin npCos : ℚ → ℚ) (X : List Row)
    (school_holidays public_holidays : List Timestamp) : List EncodedRow :=
  (curfew_periods
    (create_cyclical_features_month npSin npCos
      (create_cyclical_features_hour npSin npCos
        (add_indicator_features
          (add_season_feature (add_basic_date_features X))
          school_holidays public_holidays)))).map dropDateX

/-- Row after `categorize_weather`. -/
structure RainRow extends EncodedRow where
  rain_category : Option String
deriving DecidableEq, Repr

/-- Row after `add_weather_indicators`. -/
structure WeatherRow extends RainRow where
  is_hot_day : Nat
  is_cold_day : Nat
  high_wind : Nat
deriving DecidableEq, Repr

/-- The `pd.cut(data['rr1'], bins=[-1, 0, 2, 10, inf], labels=[...])` call of
`categorize_weather`; `pd.cut` bins are left-open right-closed, values at or
below the first edge get no category (`none`, pandas `NaN`). -/
def cutRain (x : ℚ) : Option String :=
  if -1 < x ∧ x ≤ 0 then some "No Rain"
  else if 0 < x ∧ x ≤ 2 then some "Light Rain"
  else if 2 < x ∧ x ≤ 10 then some "Moderate Rain"
  else if 10 < x then some "Heavy Rain"
  else none

/-- `categorize_weather`. -/
def categorize_weather (X : List EncodedRow) : List RainRow :=
  X.map fun r => { toEncodedRow := r, rain_category := cutRain r.rr1 }

/-- `add_weather_indicators`: three independent binary thresholds. -/
def add_weather_indicators (X : List RainRow) : List WeatherRow :=
  X.map fun r =>
    { toRainRow := r,
      is_hot_day := if 300 < r.t then 1 else 0,
      is_cold_day := if r.t < 283 then 1 else 0,
      high_wind := if 5 < r.ff then 1 else 0 }

/-- `engineer_weather_features`. -/
def engineer_weather_features (X : List EncodedRow) : List WeatherRow :=
  add_weather_indicators (categorize_weather X)

/-- `data["date"].dt.floor("D")`: the `truncated_date` helper value of
`delete_zeros`. -/
def truncDate (r : Row) : Timestamp :=
  floorTs r.date

/-- The distinct `(counter_name, truncated_date)` group keys present in the
data (the index of the `groupby` aggregation). -/
def allKeys (data : List Row) : List (String × Timestamp) :=
  (data.map fun r => (r.counter_name, truncDate r)).dedup

/-- The per-group `log_bike_count` sum of the `groupby(...).sum()`
aggregation. -/
def daySum (data : List Row) (k : String × Timestamp) : ℚ :=
  ((data.filter fun r =>
      decide (r.counter_name = k.1 ∧ truncDate r = k.2)).map
    Row.log_bike_count).sum

/-- `zero_count_days`: the (sensor, day) keys whose summed count is exactly
zero. -/
def zero_count_days (data : List Row) : List (String × Timestamp) :=
  (allKeys data).filter fun k => decide (daySum data k = 0)

/-- `delete_zeros`: the outer merge against `zero_count_days` with
`query("_merge == 'left_only'")` keeps exactly the rows whose
(sensor, truncated day) key matched no zero-sum record (pandas may reorder
rows by the sorted join key; the kept row multiset is what is modelled). -/
def delete_zeros (data : List Row) : List Row :=
  data.filter fun r =>
    decide ((r.counter_name, truncDate r) ∉ zero_count_days data)

/-! ### Column-level embedding (pandas `KeyError` behaviour and in-place
mutation of the caller's object). -/

/-- A DataFrame's column labels, in order. -/
abbrev Cols := List String

/-- Column assignment `df[c] = ...`: appends the label if absent, otherwise
overwrites in place. -/
def addCol (cols : Cols) (c : String) : Cols :=
  if c ∈ cols then cols else cols ++ [c]

/-- `df.drop(columns=[c])`: raises `KeyError` when the label is absent. -/
def dropCol (cols : Cols) (c : String) : Except String Cols :=
  if c ∈ cols then Except.ok (cols.filter fun x => decide (x ≠ c))
  else Except.error c

/-- `add_basic_date_features` at column level: reads `date_x`, assigns the
five calendar columns. -/
def add_basic_date_features_cols (cols : Cols) : Except String Cols :=
  if "date_x" ∈ cols then
    Except.ok (addCol (addCol (addCol (addCol (addCol cols "year") "month")
      "day") "weekday") "hour")
  else Except.error "date_x"

/-- `add_season_feature` at column level: reads `month`, assigns `season`. -/
def add_season_feature_cols (cols : Cols) : Except String Cols :=
  if "month" ∈ cols then Except.ok (addCol cols "season")
  else Except.error "month"

/-- `add_indicator_features` at column level: reads `date_x` (holiday flags),
then reads `hour` (after the two holiday assignments), assigns the three
flags. -/
def add_indicator_features_cols (cols : Cols) : Except String Cols :=
  if "date_x" ∈ cols then
    if "hour" ∈ addCol (addCol cols "school_holiday") "public_holiday" then
      Except.ok (addCol (addCol (addCol cols "school_holiday")
        "public_holiday") "is_peak")
    else Except.error "hour"
  else Except.error "date_x"

/-- `create_cyclical_features` at column level: reads `column`, assigns the
sine/cosine columns, then drops `column`. -/
def create_cyclical_features_cols (cols : Cols) (column : String) :
    Except String Cols :=
  if column ∈ cols then
    dropCol (addCol (addCol cols ("sin_" ++ column)) ("cos_" ++ column))
      column
  else Except.error column

/-- `curfew_periods` at column level: reads `date_x`, assigns `curfew`. -/
def curfew_periods_cols (cols : Cols) : Except String Cols :=
  if "date_x" ∈ cols then Except.ok (addCol cols "curfew")
  else Except.error "date_x"

/-- `encode_dates` at column level: the source's step chain followed by
`drop(columns=['date_x'])`; any step's `KeyError` aborts the call. -/
def encode_dates_cols (cols : Cols) : Except String Cols :=
  Except.bind (add_basic_date_features_cols cols) fun c1 =>
  Except.bind (add_season_feature_cols c1) fun c2 =>
  Except.bind (add_indicator_features_cols c2) fun c3 =>
  Except.bind (create_cyclical_features_cols c3 "hour") fun c4 =>
  Except.bind (create_cyclical_features_cols c4 "month") fun c5 =>
  Except.bind (curfew_periods_cols c5) fun c6 =>
  dropCol c6 "date_x"

/-- `categorize_weather` at column level: reads `rr1`, assigns
`rain_category`. -/
def categorize_weather_cols (cols : Cols) : Except String Cols :=
  if "rr1" ∈ cols then Except.ok (addCol cols "rain_category")
  else Except.error "rr1"

/-- `add_weather_indicators` at column level: reads `t` (twice), assigns the
hot/cold flags, reads `ff`, assigns `high_wind`. -/
def add_weather_indicators_cols (cols : Cols) : Except String Cols :=
  if "t" ∈ cols then
    if "ff" ∈ addCol (addCol cols "is_hot_day") "is_cold_day" then
      Except.ok (addCol (addCol (addCol cols "is_hot_day") "is_cold_day")
        "high_wind")
    else Except.error "ff"
  else Except.error "t"

/-- `engineer_weather_features` at column level. -/
def engineer_weather_features_cols (cols : Cols) : Except String Cols :=
  Except.bind (categorize_weather_cols cols) fun c1 =>
  add_weather_indicators_cols c1

/-- `curfew_periods` as a heap effect: `df["curfew"] = ...` mutates the
argument and the function returns that same object; result is
`(argument object after the call, returned object)`. -/
def curfew_periods_effect (cols : Cols) : Except String (Cols × Cols) :=
  if "date_x" ∈ cols then
    Except.ok (addCol cols "curfew", addCol cols "curfew")
  else Except.error "date_x"

/-- `add_indicator_features` as a heap effect: all three assignments land on
the argument object, which is also the return value. -/
def add_indicator_features_effect (cols : Cols) :
    Except String (Cols × Cols) :=
  if "date_x" ∈ cols then
    if "hour" ∈ addCol (addCol cols "school_holiday") "public_holiday" then
      Except.ok
        (addCol (addCol (addCol cols "school_holiday") "public_holiday")
          "is_peak",
         addCol (addCol (addCol cols "school_holiday") "public_holiday")
          "is_peak")
    else Except.error "hour"
  else Except.error "date_x"

/-- `delete_zeros` as a heap effect: `data["truncated_date"] = ...` mutates
the caller's object; the `merge` creates a fresh frame carrying `_merge`,
and the final `drop` removes `_merge` and `truncated_date` from that fresh
frame only.  The inner guard models the `groupby`/`merge` reads of
`counter_name` and `log_bike_count`. -/
def delete_zeros_effect (cols : Cols) : Except String (Cols × Cols) :=
  if "date" ∈ cols then
    if "counter_name" ∈ addCol cols "truncated_date" ∧
        "log_bike_count" ∈ addCol cols "truncated_date" then
      Except.ok (addCol cols "truncated_date",
        (addCol (addCol cols "truncated_date") "_merge").filter
          fun c => decide (c ≠ "_merge" ∧ c ≠ "truncated_date"))
    else Except.error "counter_name"
  else Except.error "date"

/-- The documented input column contract. -/
def baseCols : Cols :=
  ["date_x", "date", "counter_name", "log_bike_count", "t", "rr1", "ff"]

/-- The column set `encode_dates` produces from `baseCols`. -/
def encodedBaseCols : Cols :=
  ["date", "counter_name", "log_bike_count", "t", "rr1", "ff", "year",
   "day", "weekday", "season", "school_holiday", "public_holiday",
   "is_peak", "sin_hour", "cos_hour", "sin_month", "cos_month", "curfew"]

/-! ### Concrete sample data used by witnesses and counterexamples. -/

/-- Modelled from the spec wording of the curfew claim: the timestamp's
calendar date lies in `[start date, end date]` inclusive (day granularity)
and the hour disjunction holds, for some window of the table.  Kept for
comparison with `is_curfew`, which compares full timestamps. -/
def curfew_claim_matches (ts : Timestamp) : Prop :=
  ∃ w ∈ curfews,
    dayNumber w.startTs ≤ dayNumber ts ∧ dayNumber ts ≤ dayNumber w.endTs ∧
    (w.startHour ≤ ts.hour ∨ ts.hour < w.endHour)

instance : DecidablePred curfew_claim_matches := fun ts => by
  unfold curfew_claim_matches
  infer_instance

/-- A holiday calendar entry: Christmas 2020, parsed to midnight. -/
def hol25 : Timestamp := ⟨2020, 12, 25, 0, 0⟩

/-- A mid-morning timestamp on that holiday. -/
def ts25h10 : Timestamp := ⟨2020, 12, 25, 10, 0⟩

/-- A row whose `date_x` is 10:00 on the holiday date, as it reaches
`add_indicator_features`. -/
def s25 : SeasonRow :=
  ⟨⟨⟨ts25h10, ts25h10, "A", 0, 0, 0, 0⟩, 2020, 12, 25,
    weekday_of ts25h10, 10⟩, "Winter"⟩

/-- A morning timestamp in a peak hour. -/
def ts7 : Timestamp := ⟨2020, 10, 20, 7, 0⟩

/-- A row with hour 7 as it reaches `add_indicator_features`. -/
def s7 : SeasonRow :=
  ⟨⟨⟨ts7, ts7, "A", 0, 0, 0, 0⟩, 2020, 10, 20, weekday_of ts7, 7⟩, "Fall"⟩

/-- The row `add_indicator_features` produces from `s7` with empty holiday
sets. -/
def idr7 : IndRow := ⟨s7, 0, 0, 1⟩

/-- A timestamp used by the dead-period rows. -/
def dayA : Timestamp := ⟨2021, 3, 1, 8, 0⟩

/-- A sensor-A reading of +1 on that day. -/
def rPos : Row := ⟨dayA, dayA, "A", 1, 0, 0, 0⟩

/-- A sensor-A reading of -1 on the same day: same (sensor, day) group. -/
def rNeg : Row := ⟨dayA, dayA, "A", -1, 0, 0, 0⟩

/-! ### Helper lemmas. -/

/-- The scan returns 1 exactly when some window passes both the
full-timestamp range test and the hour disjunction. -/
theorem is_curfew_scan_eq_one_iff (ws : List CurfewWindow) (ts : Timestamp) :
    is_curfew_scan ws ts = 1 ↔
      ∃ w ∈ ws, toMinutes w.startTs ≤ toMinutes ts ∧
        toMinutes ts ≤ toMinutes w.endTs ∧
        (w.startHour ≤ ts.hour ∨ ts.hour < w.endHour) := by
  induction ws with
  | nil => simp [is_curfew_scan]
  | cons w rest ih =>
    simp only [is_curfew_scan]
    split_ifs with hr hh
    · constructor
      · intro _
        exact ⟨w, List.mem_cons_self w rest, hr.1, hr.2, hh⟩
      · intro _
        rfl
    · rw [ih]
      constructor
      · rintro ⟨u, hu, hp⟩
        exact ⟨u, List.mem_cons_of_mem w hu, hp⟩
      · rintro ⟨u, hu, p1, p2, p3⟩
        rcases List.mem_cons.mp hu with rfl | hu2
        · exact absurd p3 hh
        · exact ⟨u, hu2, p1, p2, p3⟩
    · rw [ih]
      constructor
      · rintro ⟨u, hu, hp⟩
        exact ⟨u, List.mem_cons_of_mem w hu, hp⟩
      · rintro ⟨u, hu, p1, p2, p3⟩
        rcases List.mem_cons.mp hu with rfl | hu2
        · exact absurd ⟨p1, p2⟩ hr
        · exact ⟨u, hu2, p1, p2, p3⟩

/-- The scan only produces the values 0 and 1. -/
theorem is_curfew_scan_zero_or_one (ws : List CurfewWindow) (ts : Timestamp) :
    is_curfew_scan ws ts = 0 ∨ is_curfew_scan ws ts = 1 := by
  induction ws with
  | nil => simp [is_curfew_scan]
  | cons w rest ih =>
    simp only [is_curfew_scan]
    split_ifs <;> simp [ih]

/-- Every window of the fixed table has midnight endpoints. -/
theorem curfews_midnight (w : CurfewWindow) (hw : w ∈ curfews) :
    w.startTs.hour = 0 ∧ w.startTs.minute = 0 ∧
    w.endTs.hour = 0 ∧ w.endTs.minute = 0 := by
  fin_cases hw <;> exact ⟨rfl, rfl, rfl, rfl⟩

/-! ### Claim C2: the Curfew Classifier. -/

/-- Claim C2 counterexample: at 2020-10-29 22:00 the calendar date lies in
the first window's `[start date, end date]` inclusive and hour 22 ≥ 21, so
the claim demands `is_curfew = 1`; the code compares full timestamps against
the midnight end timestamp and returns 0. -/
theorem curfew_end_date_counterexample :
    curfew_claim_matches ⟨2020, 10, 29, 22, 0⟩ ∧
    is_curfew ⟨2020, 10, 29, 22, 0⟩ = 0 := by decide

/-- Claim C2 (amended): `is_curfew t = 1` iff some window of the fixed
five-entry table satisfies `start ≤ t ≤ end` as full timestamps (the end
date therefore matches only at exactly midnight) together with
`hour ≥ start_hour OR hour < end_hour`; otherwise 0.  In particular
`is_curfew(2020-10-20 22:00) = 1`, `is_curfew(2020-10-20 10:00) = 0`, and
any timestamp whose calendar date lies outside every window's date range
yields 0. -/
theorem curfew_classifier_spec :
    (∀ ts : Timestamp, is_curfew ts = 1 ↔
      ∃ w ∈ curfews, toMinutes w.startTs ≤ toMinutes ts ∧
        toMinutes ts ≤ toMinutes w.endTs ∧
        (w.startHour ≤ ts.hour ∨ ts.hour < w.endHour)) ∧
    is_curfew ⟨2020, 10, 20, 22, 0⟩ = 1 ∧
    is_curfew ⟨2020, 10, 20, 10, 0⟩ = 0 ∧
    (∀ ts : Timestamp, ts.hour < 24 → ts.minute < 60 →
      (∀ w ∈ curfews,
        ¬(dayNumber w.startTs ≤ dayNumber ts ∧
          dayNumber ts ≤ dayNumber w.endTs)) →
      is_curfew ts = 0) := by
  refine ⟨fun ts => is_curfew_scan_eq_one_iff curfews ts, by decide, by decide, ?_⟩
  intro ts h24 h60 hout
  rcases is_curfew_scan_zero_or_one curfews ts with h0 | h1
  · exact h0
  · exfalso
    obtain ⟨w, hw, p1, p2, _⟩ := (is_curfew_scan_eq_one_iff curfews ts).mp h1
    obtain ⟨e1, e2, e3, e4⟩ := curfews_midnight w hw
    apply hout w hw
    simp only [toMinutes, e1, e2, e3, e4] at p1 p2
    omega

/-- Witness for the amended curfew claim: a date outside every window. -/
theorem curfew_classifier_spec_witness :
    is_curfew ⟨2022, 1, 1, 22, 0⟩ = 0 :=
  curfew_classifier_spec.2.2.2 ⟨2022, 1, 1, 22, 0⟩ (by decide) (by decide)
    (by decide)

/-! ### Claim C1: the holiday indicator flags. -/

/-- Claim C1 demands `school_holiday = 1` whenever the day-truncated
`date_x` is a member of the school-holiday set; the code's
`X["date_x"].isin(school_holidays)` compares the full timestamp against the
midnight holiday entries, so a 10:00 row on a holiday gets flag 0. -/
theorem school_holiday_flag_divergence :
    (add_indicator_features [s25] [hol25] []).map
      (fun r => r.school_holiday) = [0] ∧
    floorTs s25.date_x ∈ [hol25] ∧
    s25.date_x = ts25h10 := by decide

/-! ### Claim C3: the Dead-Period Cleaner. -/

/-- A list of nonnegative rationals has nonnegative sum. -/
theorem list_sum_nonneg {l : List ℚ} (h : ∀ x ∈ l, 0 ≤ x) : 0 ≤ l.sum := by
  induction l with
  | nil => simp
  | cons a l ih =>
    simp only [List.sum_cons]
    have ha := h a (List.mem_cons_self a l)
    have hl := ih fun x hx => h x (List.mem_cons_of_mem a hx)
    linarith

/-- A list of nonnegative rationals sums to zero iff every entry is zero. -/
theorem sum_eq_zero_iff_of_nonneg {l : List ℚ} (h : ∀ x ∈ l, 0 ≤ x) :
    l.sum = 0 ↔ ∀ x ∈ l, x = 0 := by
  induction l with
  | nil => simp
  | cons a l ih =>
    simp only [List.sum_cons, List.mem_cons]
    have ha := h a (List.mem_cons_self a l)
    have hl := list_sum_nonneg fun x hx => h x (List.mem_cons_of_mem a hx)
    constructor
    · intro h0 x hx
      have ha0 : a = 0 := by linarith
      have hl0 : l.sum = 0 := by linarith
      rcases hx with rfl | hx
      · exact ha0
      · exact ((ih fun y hy => h y (List.mem_cons_of_mem a hy)).mp hl0) x hx
    · intro hall
      have ha0 : a = 0 := hall a (Or.inl rfl)
      have hl0 : l.sum = 0 :=
        (ih fun y hy => h y (List.mem_cons_of_mem a hy)).mpr
          fun x hx => hall x (Or.inr hx)
      rw [ha0, hl0, add_zero]

/-- Every row's group key appears among the grouped keys. -/
theorem mem_allKeys {data : List Row} {r : Row} (h : r ∈ data) :
    (r.counter_name, truncDate r) ∈ allKeys data :=
  List.mem_dedup.mpr (List.mem_map.mpr ⟨r, h, rfl⟩)

/-- A row survives `delete_zeros` exactly when its (sensor, truncated-day)
group sum is non-zero. -/
theorem delete_zeros_mem_iff (data : List Row) (r : Row) :
    r ∈ delete_zeros data ↔
      r ∈ data ∧ daySum data (r.counter_name, truncDate r) ≠ 0 := by
  unfold delete_zeros
  rw [List.mem_filter]
  constructor
  · rintro ⟨hm, hp⟩
    refine ⟨hm, fun hz => ?_⟩
    have hnot : (r.counter_name, truncDate r) ∉ zero_count_days data :=
      of_decide_eq_true hp
    exact hnot (List.mem_filter.mpr ⟨mem_allKeys hm, by simp [hz]⟩)
  · rintro ⟨hm, hz⟩
    refine ⟨hm, decide_eq_true fun hcontra => ?_⟩
    exact hz (by simpa using (List.mem_filter.mp hcontra).2)

/-- Claim C3 counterexample: two readings +1 and -1 of the same sensor-day
cancel, the group sum is 0, and `delete_zeros` removes both rows although
the group contains non-zero readings. -/
theorem delete_zeros_cancellation_counterexample :
    delete_zeros [rPos, rNeg] = [] ∧ rPos ∈ [rPos, rNeg] ∧
    rPos.log_bike_count ≠ 0 := by
  refine ⟨List.eq_nil_iff_forall_not_mem.mpr ?_, by simp,
    by norm_num [rPos]⟩
  intro r hr
  obtain ⟨hm, hz⟩ := (delete_zeros_mem_iff [rPos, rNeg] r).mp hr
  apply hz
  have hcases : r = rPos ∨ r = rNeg := by simpa using hm
  have hsum : daySum [rPos, rNeg] (rPos.counter_name, truncDate rPos) =
      [(1 : ℚ), -1].sum := rfl
  rcases hcases with rfl | rfl
  · rw [hsum]
    norm_num [List.sum_cons, List.sum_nil]
  · show daySum [rPos, rNeg] (rPos.counter_name, truncDate rPos) = 0
    rw [hsum]
    norm_num [List.sum_cons, List.sum_nil]

/-- Claim C3 (amended): `delete_zeros` keeps exactly the rows whose
(sensor, truncated-day) group has non-zero summed count; when every count
reading is nonnegative (the intended domain of the log-transformed counts)
this coincides with the claim: a row is kept iff its group contains at
least one non-zero reading, and a group of all-zero readings is removed
whole. -/
theorem delete_zeros_characterization :
    ∀ data : List Row,
      (∀ r : Row, r ∈ delete_zeros data ↔
        r ∈ data ∧ daySum data (r.counter_name, truncDate r) ≠ 0) ∧
      ((∀ r ∈ data, 0 ≤ r.log_bike_count) → ∀ r : Row,
        r ∈ delete_zeros data ↔ r ∈ data ∧ ∃ s, s ∈ data ∧
          s.counter_name = r.counter_name ∧ truncDate s = truncDate r ∧
          s.log_bike_count ≠ 0) := by
  intro data
  refine ⟨delete_zeros_mem_iff data, fun hnn r => ?_⟩
  rw [delete_zeros_mem_iff data r]
  have hpos : ∀ x ∈ (data.filter fun s =>
      decide (s.counter_name = r.counter_name ∧
        truncDate s = truncDate r)).map Row.log_bike_count, 0 ≤ x := by
    intro x hx
    obtain ⟨u, hu, rfl⟩ := List.mem_map.mp hx
    exact hnn u (List.mem_filter.mp hu).1
  constructor
  · rintro ⟨hm, hz⟩
    refine ⟨hm, ?_⟩
    by_contra hall
    push_neg at hall
    apply hz
    unfold daySum
    rw [sum_eq_zero_iff_of_nonneg hpos]
    intro x hx
    obtain ⟨u, hu, rfl⟩ := List.mem_map.mp hx
    obtain ⟨hud, hup⟩ := List.mem_filter.mp hu
    obtain ⟨hcn, htd⟩ := of_decide_eq_true hup
    exact hall u hud hcn htd
  · rintro ⟨hm, s, hs, hcn, htd, hne⟩
    refine ⟨hm, fun hz => ?_⟩
    unfold daySum at hz
    rw [sum_eq_zero_iff_of_nonneg hpos] at hz
    apply hne
    apply hz
    exact List.mem_map.mpr
      ⟨s, List.mem_filter.mpr ⟨hs, by simp [hcn, htd]⟩, rfl⟩

/-- Witness for the amended cleaner claim: a single non-zero reading keeps
its row. -/
theorem delete_zeros_characterization_witness :
    rPos ∈ delete_zeros [rPos] :=
  ((delete_zeros_characterization [rPos]).2
      (by intro r hr; simp only [List.mem_singleton] at hr; subst hr;
          norm_num [rPos]) rPos).mpr
    ⟨by simp, rPos, by simp, rfl, rfl, by norm_num [rPos]⟩

/-! ### Claim C4: the rainfall bins. -/

/-- Exhaustive value analysis of the `pd.cut` embedding. -/
theorem cutRain_cases (x : ℚ) :
    (x ≤ -1 ∧ cutRain x = none) ∨
    (-1 < x ∧ x ≤ 0 ∧ cutRain x = some "No Rain") ∨
    (0 < x ∧ x ≤ 2 ∧ cutRain x = some "Light Rain") ∨
    (2 < x ∧ x ≤ 10 ∧ cutRain x = some "Moderate Rain") ∨
    (10 < x ∧ cutRain x = some "Heavy Rain") := by
  by_cases h1 : -1 < x ∧ x ≤ 0
  · exact Or.inr (Or.inl ⟨h1.1, h1.2, by unfold cutRain; rw [if_pos h1]⟩)
  by_cases h2 : 0 < x ∧ x ≤ 2
  · exact Or.inr (Or.inr (Or.inl ⟨h2.1, h2.2,
      by unfold cutRain; rw [if_neg h1, if_pos h2]⟩))
  by_cases h3 : 2 < x ∧ x ≤ 10
  · exact Or.inr (Or.inr (Or.inr (Or.inl ⟨h3.1, h3.2,
      by unfold cutRain; rw [if_neg h1, if_neg h2, if_pos h3]⟩)))
  by_cases h4 : 10 < x
  · exact Or.inr (Or.inr (Or.inr (Or.inr ⟨h4,
      by unfold cutRain; rw [if_neg h1, if_neg h2, if_neg h3, if_pos h4]⟩)))
  · left
    have hx4 : x ≤ 10 := not_lt.mp h4
    have hx3 : x ≤ 2 := by
      by_contra hc
      exact h3 ⟨not_le.mp hc, hx4⟩
    have hx2 : x ≤ 0 := by
      by_contra hc
      exact h2 ⟨not_le.mp hc, hx3⟩
    have hx1 : x ≤ -1 := by
      by_contra hc
      exact h1 ⟨not_le.mp hc, hx2⟩
    exact ⟨hx1,
      by unfold cutRain; rw [if_neg h1, if_neg h2, if_neg h3, if_neg h4]⟩

/-- Claim C4: `categorize_weather` bins rainfall by the left-open
right-closed intervals (−1,0] No Rain, (0,2] Light Rain, (2,10] Moderate
Rain, (10,∞) Heavy Rain; in particular 0 is No Rain, 2 is Light Rain, 10 is
Moderate Rain and 10.0001 is Heavy Rain. -/
theorem rain_category_bins :
    (∀ (X : List EncodedRow) (r : RainRow), r ∈ categorize_weather X →
      r.rain_category = cutRain r.rr1) ∧
    (∀ x : ℚ,
      ((-1 < x ∧ x ≤ 0) ↔ cutRain x = some "No Rain") ∧
      ((0 < x ∧ x ≤ 2) ↔ cutRain x = some "Light Rain") ∧
      ((2 < x ∧ x ≤ 10) ↔ cutRain x = some "Moderate Rain") ∧
      (10 < x ↔ cutRain x = some "Heavy Rain")) ∧
    cutRain 0 = some "No Rain" ∧ cutRain 2 = some "Light Rain" ∧
    cutRain 10 = some "Moderate Rain" ∧
    cutRain (100001 / 10000) = some "Heavy Rain" := by
  refine ⟨?_, fun x => ?_, by norm_num [cutRain], by norm_num [cutRain],
    by norm_num [cutRain], by norm_num [cutRain]⟩
  · rintro X r hr
    simp only [categorize_weather, List.mem_map] at hr
    obtain ⟨e, he, rfl⟩ := hr
    rfl
  · rcases cutRain_cases x with ⟨hb1, e⟩ | ⟨hb1, hb2, e⟩ | ⟨hb1, hb2, e⟩ |
      ⟨hb1, hb2, e⟩ | ⟨hb1, e⟩ <;>
    rw [e] <;>
    refine ⟨⟨?_, ?_⟩, ⟨?_, ?_⟩, ⟨?_, ?_⟩, ⟨?_, ?_⟩⟩ <;> intro hc <;>
    first
      | rfl
      | exact absurd hc (by decide)
      | exact ⟨by linarith, by linarith⟩
      | linarith

/-- Witness for the rainfall-bin claim at a concrete interior value. -/
theorem rain_category_bins_witness :
    cutRain 1 = some "Light Rain" :=
  ((rain_category_bins.2.1 1).2.1).mp (by norm_num)

/-! ### Claim C5: the season partition. -/

/-- Claim C5: months 12/1/2 map to Winter, 3/4/5 to Spring, 6/7/8 to
Summer, 9/10/11 to Fall; every month 1–12 gets a season (never
`"Unknown"`), and any month outside 1–12 yields the sentinel
`"Unknown"`. -/
theorem season_partition :
    (∀ (X : List BasicRow) (r : SeasonRow), r ∈ add_season_feature X →
      r.season = season_of r.month) ∧
    ∀ m : Nat,
      ((m = 12 ∨ m = 1 ∨ m = 2) → season_of m = "Winter") ∧
      ((m = 3 ∨ m = 4 ∨ m = 5) → season_of m = "Spring") ∧
      ((m = 6 ∨ m = 7 ∨ m = 8) → season_of m = "Summer") ∧
      ((m = 9 ∨ m = 10 ∨ m = 11) → season_of m = "Fall") ∧
      (1 ≤ m → m ≤ 12 → season_of m ≠ "Unknown") ∧
      (¬(1 ≤ m ∧ m ≤ 12) → season_of m = "Unknown") := by
  constructor
  · rintro X r hr
    simp only [add_season_feature, List.mem_map] at hr
    obtain ⟨b, hb, rfl⟩ := hr
    rfl
  · intro m
    refine ⟨?_, ?_, ?_, ?_, ?_, ?_⟩
    · rintro (rfl | rfl | rfl) <;> decide
    · rintro (rfl | rfl | rfl) <;> decide
    · rintro (rfl | rfl | rfl) <;> decide
    · rintro (rfl | rfl | rfl) <;> decide
    · intro hlo hhi
      interval_cases m <;> decide
    · intro h
      unfold season_of
      split_ifs with h1 h2 h3 h4 <;> first | rfl | (exfalso; omega)

/-- Witness for the season claim: a concrete month in range and one out of
range. -/
theorem season_partition_witness :
    season_of 7 = "Summer" ∧ season_of 13 = "Unknown" :=
  ⟨(season_partition.2 7).2.2.1 (Or.inr (Or.inl rfl)),
   (season_partition.2 13).2.2.2.2.2 (by omega)⟩

/-! ### Claim C7: the peak-hour flag. -/

/-- Claim C7: a row's `is_peak` flag is 1 exactly when its hour lies in
[6,9) ∪ [16,19), and 0 otherwise. -/
theorem is_peak_characterization :
    ∀ (X : List SeasonRow) (sch pub : List Timestamp) (r : IndRow),
      r ∈ add_indicator_features X sch pub →
      (r.is_peak = 1 ↔ (6 ≤ r.hour ∧ r.hour < 9) ∨
        (16 ≤ r.hour ∧ r.hour < 19)) ∧
      (¬((6 ≤ r.hour ∧ r.hour < 9) ∨ (16 ≤ r.hour ∧ r.hour < 19)) →
        r.is_peak = 0) := by
  intro X sch pub r hr
  simp only [add_indicator_features, List.mem_map] at hr
  obtain ⟨s, hs, rfl⟩ := hr
  dsimp only
  unfold is_peak_of
  split_ifs with hc
  · exact ⟨⟨fun _ => hc, fun _ => rfl⟩, fun hn => absurd hc hn⟩
  · exact ⟨⟨fun h01 => absurd h01 (by decide), fun h => absurd h hc⟩,
      fun _ => rfl⟩

/-- Witness for the peak-hour claim at hour 7. -/
theorem is_peak_characterization_witness :
    idr7.is_peak = 1 :=
  ((is_peak_characterization [s7] [] [] idr7 (by decide)).1).mpr
    (Or.inl ⟨by decide, by decide⟩)

/-! ### Claim C6: row-count preservation. -/

/-- Claim C6: the Temporal and Weather Feature Builders return exactly as
many rows as they receive; only the Dead-Period Cleaner can shrink the
table. -/
theorem builders_preserve_row_count :
    ∀ (npSin npCos : ℚ → ℚ) (X : List Row)
      (sch pub : List Timestamp) (Y : List EncodedRow) (D : List Row),
      (encode_dates npSin npCos X sch pub).length = X.length ∧
      (engineer_weather_features Y).length = Y.length ∧
      (delete_zeros D).length ≤ D.length := by
  intro npSin npCos X sch pub Y D
  refine ⟨?_, ?_, List.length_filter_le _ _⟩
  · simp [encode_dates, curfew_periods, create_cyclical_features_month,
      create_cyclical_features_hour, add_indicator_features,
      add_season_feature, add_basic_date_features]
  · simp [engineer_weather_features, add_weather_indicators,
      categorize_weather]

/-! ### Claims C8 and C9: empty input and the one-way column contract. -/

/-- `Except.bind` on a success. -/
theorem except_ok_bind {α β : Type} (a : α) (f : α → Except String β) :
    Except.bind (Except.ok a) f = f a := rfl

/-- `Except.bind` on a failure. -/
theorem except_error_bind {α β : Type} (e : String)
    (f : α → Except String β) :
    Except.bind (Except.error e) f = (Except.error e : Except String β) := rfl

/-- A label is present after assigning it. -/
theorem mem_addCol_self (cols : Cols) (c : String) : c ∈ addCol cols c := by
  unfold addCol
  split_ifs with h
  · exact h
  · simp

/-- Assignment preserves the presence of other labels. -/
theorem mem_addCol (cols : Cols) (d : String) {c : String} (h : c ∈ cols) :
    c ∈ addCol cols d := by
  unfold addCol
  split_ifs
  · exact h
  · simp [h]

/-- Dropping a different label preserves presence. -/
theorem mem_filter_ne {c d : String} {cols : Cols} (h : c ∈ cols)
    (hne : c ≠ d) : c ∈ cols.filter fun x => decide (x ≠ d) := by
  simp [List.mem_filter, h, hne]

/-- A dropped label is gone. -/
theorem not_mem_filter_self (cols : Cols) (c : String) :
    c ∉ cols.filter fun x => decide (x ≠ c) := by
  simp [List.mem_filter]

/-- Claim C8: on a zero-row input each pipeline stage returns a zero-row
output, and at column level each stage succeeds on the documented input
columns and produces every derived column (row count does not matter to the
column computation, so zero rows raise nothing). -/
theorem empty_input_well_shaped :
    (∀ (npSin npCos : ℚ → ℚ) (sch pub : List Timestamp),
      encode_dates npSin npCos [] sch pub = []) ∧
    engineer_weather_features [] = [] ∧
    delete_zeros [] = [] ∧
    encode_dates_cols baseCols = Except.ok encodedBaseCols ∧
    engineer_weather_features_cols baseCols =
      Except.ok (baseCols ++
        ["rain_category", "is_hot_day", "is_cold_day", "high_wind"]) ∧
    delete_zeros_effect baseCols =
      Except.ok (baseCols ++ ["truncated_date"], baseCols) :=
  ⟨fun _ _ _ _ => rfl, rfl, rfl, rfl, rfl, rfl⟩

/-- Claim C9: from any column set containing `date_x`, `encode_dates`
succeeds and its output lacks `date_x`; running it again on that output
raises the missing-column error instead of producing output. -/
theorem encode_dates_one_way :
    ∀ cols : Cols, "date_x" ∈ cols →
      ∃ cs, encode_dates_cols cols = Except.ok cs ∧ "date_x" ∉ cs ∧
        encode_dates_cols cs = Except.error "date_x" := by
  intro cols h0
  set c1 := addCol (addCol (addCol (addCol (addCol cols "year") "month")
    "day") "weekday") "hour" with hc1
  have h1 : add_basic_date_features_cols cols = Except.ok c1 := by
    unfold add_basic_date_features_cols
    rw [if_pos h0, hc1]
  have hdx1 : "date_x" ∈ c1 :=
    mem_addCol _ _ (mem_addCol _ _ (mem_addCol _ _ (mem_addCol _ _
      (mem_addCol _ _ h0))))
  have hmon1 : "month" ∈ c1 :=
    mem_addCol _ _ (mem_addCol _ _ (mem_addCol _ _ (mem_addCol_self _ _)))
  have hhr1 : "hour" ∈ c1 := mem_addCol_self _ _
  set c2 := addCol c1 "season" with hc2
  have h2 : add_season_feature_cols c1 = Except.ok c2 := by
    unfold add_season_feature_cols
    rw [if_pos hmon1, hc2]
  have hdx2 : "date_x" ∈ c2 := mem_addCol _ _ hdx1
  have hmon2 : "month" ∈ c2 := mem_addCol _ _ hmon1
  have hhr2 : "hour" ∈ c2 := mem_addCol _ _ hhr1
  set c3 := addCol (addCol (addCol c2 "school_holiday") "public_holiday")
    "is_peak" with hc3
  have h3 : add_indicator_features_cols c2 = Except.ok c3 := by
    unfold add_indicator_features_cols
    rw [if_pos hdx2, if_pos (mem_addCol _ _ (mem_addCol _ _ hhr2)), hc3]
  have hdx3 : "date_x" ∈ c3 :=
    mem_addCol _ _ (mem_addCol _ _ (mem_addCol _ _ hdx2))
  have hmon3 : "month" ∈ c3 :=
    mem_addCol _ _ (mem_addCol _ _ (mem_addCol _ _ hmon2))
  have hhr3 : "hour" ∈ c3 :=
    mem_addCol _ _ (mem_addCol _ _ (mem_addCol _ _ hhr2))
  set c4 := (addCol (addCol c3 ("sin_" ++ "hour")) ("cos_" ++ "hour")).filter
    (fun x => decide (x ≠ "hour")) with hc4
  have h4 : create_cyclical_features_cols c3 "hour" = Except.ok c4 := by
    unfold create_cyclical_features_cols dropCol
    rw [if_pos hhr3, if_pos (mem_addCol _ _ (mem_addCol _ _ hhr3)), hc4]
  have hdx4 : "date_x" ∈ c4 :=
    mem_filter_ne (mem_addCol _ _ (mem_addCol _ _ hdx3)) (by decide)
  have hmon4 : "month" ∈ c4 :=
    mem_filter_ne (mem_addCol _ _ (mem_addCol _ _ hmon3)) (by decide)
  set c5 := (addCol (addCol c4 ("sin_" ++ "month"))
    ("cos_" ++ "month")).filter (fun x => decide (x ≠ "month")) with hc5
  have h5 : create_cyclical_features_cols c4 "month" = Except.ok c5 := by
    unfold create_cyclical_features_cols dropCol
    rw [if_pos hmon4, if_pos (mem_addCol _ _ (mem_addCol _ _ hmon4)), hc5]
  have hdx5 : "date_x" ∈ c5 :=
    mem_filter_ne (mem_addCol _ _ (mem_addCol _ _ hdx4)) (by decide)
  set c6 := addCol c5 "curfew" with hc6
  have h6 : curfew_periods_cols c5 = Except.ok c6 := by
    unfold curfew_periods_cols
    rw [if_pos hdx5, hc6]
  have hdx6 : "date_x" ∈ c6 := mem_addCol _ _ hdx5
  set cs := c6.filter (fun x => decide (x ≠ "date_x")) with hcs
  have h7 : dropCol c6 "date_x" = Except.ok cs := by
    unfold dropCol
    rw [if_pos hdx6, hcs]
  have hnot : "date_x" ∉ cs := by
    rw [hcs]
    exact not_mem_filter_self c6 "date_x"
  refine ⟨cs, ?_, hnot, ?_⟩
  · unfold encode_dates_cols
    simp only [h1, except_ok_bind, h2, h3, h4, h5, h6, h7]
  · unfold encode_dates_cols add_basic_date_features_cols
    rw [if_neg hnot]
    rfl

/-- Witness for the one-way claim at the documented input columns. -/
theorem encode_dates_one_way_witness :
    ∃ cs, encode_dates_cols baseCols = Except.ok cs ∧ "date_x" ∉ cs ∧
      encode_dates_cols cs = Except.error "date_x" :=
  encode_dates_one_way baseCols (by decide)

/-! ### Claim C10: in-place mutation of the caller's DataFrame. -/

/-- Claim C10: `delete_zeros` leaves its helper column `truncated_date` on
the caller's object while the returned frame lacks it, and the
`encode_dates` helper steps `curfew_periods` and `add_indicator_features`
assign their derived columns directly onto the object they are given
(returning that same mutated object). -/
theorem pipeline_in_place_effects :
    (∀ cols : Cols, "date" ∈ cols → "counter_name" ∈ cols →
      "log_bike_count" ∈ cols → "truncated_date" ∉ cols →
      ∃ m r, delete_zeros_effect cols = Except.ok (m, r) ∧ m ≠ cols ∧
        "truncated_date" ∈ m ∧ "truncated_date" ∉ r) ∧
    (∀ cols : Cols, "date_x" ∈ cols → "curfew" ∉ cols →
      ∃ m, curfew_periods_effect cols = Except.ok (m, m) ∧ m ≠ cols ∧
        "curfew" ∈ m) ∧
    (∀ cols : Cols, "date_x" ∈ cols → "hour" ∈ cols →
      ∃ m, add_indicator_features_effect cols = Except.ok (m, m) ∧
        "school_holiday" ∈ m ∧ "public_holiday" ∈ m ∧ "is_peak" ∈ m) := by
  refine ⟨?_, ?_, ?_⟩
  · intro cols hd hcn hlb htd
    have hm : addCol cols "truncated_date" = cols ++ ["truncated_date"] := by
      unfold addCol
      rw [if_neg htd]
    refine ⟨addCol cols "truncated_date",
      (addCol (addCol cols "truncated_date") "_merge").filter
        (fun c => decide (c ≠ "_merge" ∧ c ≠ "truncated_date")),
      ?_, ?_, ?_, ?_⟩
    · unfold delete_zeros_effect
      rw [if_pos hd, if_pos ⟨mem_addCol _ _ hcn, mem_addCol _ _ hlb⟩]
    · rw [hm]
      intro hEq
      have := congrArg List.length hEq
      simp at this
    · exact mem_addCol_self _ _
    · intro hmem
      have := (List.mem_filter.mp hmem).2
      simp at this
  · intro cols hdx hcf
    have hm : addCol cols "curfew" = cols ++ ["curfew"] := by
      unfold addCol
      rw [if_neg hcf]
    refine ⟨addCol cols "curfew", ?_, ?_, mem_addCol_self _ _⟩
    · unfold curfew_periods_effect
      rw [if_pos hdx]
    · rw [hm]
      intro hEq
      have := congrArg List.length hEq
      simp at this
  · intro cols hdx hhr
    refine ⟨addCol (addCol (addCol cols "school_holiday") "public_holiday")
      "is_peak", ?_, ?_, ?_, mem_addCol_self _ _⟩
    · unfold add_indicator_features_effect
      rw [if_pos hdx, if_pos (mem_addCol _ _ (mem_addCol _ _ hhr))]
    · exact mem_addCol _ _ (mem_addCol _ _ (mem_addCol_self _ _))
    · exact mem_addCol _ _ (mem_addCol_self _ _)

/-- Witness for the in-place-mutation claim at concrete column sets. -/
theorem pipeline_in_place_effects_witness :
    (∃ m r, delete_zeros_effect ["date", "counter_name", "log_bike_count"] =
      Except.ok (m, r) ∧ m ≠ ["date", "counter_name", "log_bike_count"] ∧
      "truncated_date" ∈ m ∧ "truncated_date" ∉ r) ∧
    (∃ m, curfew_periods_effect ["date_x"] = Except.ok (m, m) ∧
      m ≠ ["date_x"] ∧ "curfew" ∈ m) ∧
    (∃ m, add_indicator_features_effect ["date_x", "hour"] =
      Except.ok (m, m) ∧ "school_holiday" ∈ m ∧ "public_holiday" ∈ m ∧
      "is_peak" ∈ m) :=
  ⟨pipeline_in_place_effects.1 ["date", "counter_name", "log_bike_count"]
      (by decide) (by decide) (by decide) (by decide),
   pipeline_in_place_effects.2.1 ["date_x"] (by decide) (by decide),
   pipeline_in_place_effects.2.2 ["date_x", "hour"] (by decide) (by decide)⟩
